import Mathlib

/-!
Shallow embedding of the DocumentInsightAi server: the in-memory store
(`server/storage.ts`), the chat route and upload route of `registerRoutes`,
and the file-processing entry point (`server/utils/fileProcessing.ts`).

JavaScript `Map`s keyed by entity id are modelled as insertion-ordered lists
of the entity records (the key of each entry is the record's `id` field);
`Map.set` replaces the entry with the given key in place or appends a new
entry, `Map.delete` removes it, `Map.prototype.values()` yields insertion
order.  `new Date()` is modelled by a logical clock carried in the store
state that advances at every mutating operation that reads the wall clock,
so successive timestamps are strictly increasing.
-/

namespace DocInsight

/-- `users` table of `shared/schema.ts`. -/
structure User where
  id : Nat
  username : String
  password : String
  deriving Repr, DecidableEq

/-- `documents` table of `shared/schema.ts`. -/
structure Document where
  id : Nat
  name : String
  originalName : String
  mimeType : String
  size : Nat
  content : String
  uploadedAt : Nat
  deriving Repr, DecidableEq

/-- `messages` table of `shared/schema.ts`.  The `documentId` field is the
misnamed session reference: `MemStorage.getMessages` filters on it with a
session id and `MemStorage.createMessage` uses it to find the session. -/
structure Message where
  id : Nat
  documentId : Nat
  role : String
  content : String
  timestamp : Nat
  deriving Repr, DecidableEq

/-- `sessions` table of `shared/schema.ts`. -/
structure Session where
  id : Nat
  documentId : Nat
  name : String
  createdAt : Nat
  lastMessageAt : Nat
  deriving Repr, DecidableEq

/-- `InsertUser` (id omitted). -/
structure InsertUser where
  username : String
  password : String
  deriving Repr, DecidableEq

/-- `InsertDocument` (id and uploadedAt omitted). -/
structure InsertDocument where
  name : String
  originalName : String
  mimeType : String
  size : Nat
  content : String
  deriving Repr, DecidableEq

/-- `InsertMessage` (id and timestamp omitted). -/
structure InsertMessage where
  documentId : Nat
  role : String
  content : String
  deriving Repr, DecidableEq

/-- `InsertSession` (id, createdAt, lastMessageAt omitted). -/
structure InsertSession where
  documentId : Nat
  name : String
  deriving Repr, DecidableEq

/-- `Map.set k v`: replace the (unique) entry whose key is `k` in place,
or append the new entry at the end. -/
def mapSet {α : Type} (key : α → Nat) : List α → Nat → α → List α
  | [], _, v => [v]
  | x :: xs, k, v => if key x == k then v :: xs else x :: mapSet key xs k v

/-- `Map.delete k`, the resulting entry list: the entry with key `k` is
removed. -/
def mapErase {α : Type} (key : α → Nat) : List α → Nat → List α
  | [], _ => []
  | x :: xs, k => if key x == k then xs else x :: mapErase key xs k

/-- `Map.has k` (also the boolean that `Map.delete` returns). -/
def mapHas {α : Type} (key : α → Nat) (l : List α) (k : Nat) : Bool :=
  l.any (fun x => key x == k)

/-- The mutable fields of `MemStorage` (`server/storage.ts`), plus the
logical wall clock. -/
structure MemStorage where
  users : List User
  documents : List Document
  sessions : List Session
  messages : List Message
  userIdCounter : Nat
  documentIdCounter : Nat
  sessionIdCounter : Nat
  messageIdCounter : Nat
  clock : Nat
  deriving Repr, DecidableEq

namespace MemStorage

/-- `new MemStorage()`: empty maps, every counter starts at 1. -/
def init : MemStorage :=
  { users := [], documents := [], sessions := [], messages := []
    userIdCounter := 1, documentIdCounter := 1, sessionIdCounter := 1
    messageIdCounter := 1, clock := 0 }

/-- `getUser`. -/
def getUser (s : MemStorage) (id : Nat) : Option User :=
  s.users.find? (fun u => u.id == id)

/-- `getUserByUsername`. -/
def getUserByUsername (s : MemStorage) (username : String) : Option User :=
  s.users.find? (fun u => u.username == username)

/-- `createUser`. -/
def createUser (s : MemStorage) (ins : InsertUser) : User × MemStorage :=
  let id := s.userIdCounter
  let user : User := { id := id, username := ins.username, password := ins.password }
  (user, { s with users := mapSet User.id s.users id user, userIdCounter := id + 1 })

/-- The comparator of `getDocuments`: upload time descending. -/
def docDesc (a b : Document) : Bool :=
  decide (b.uploadedAt ≤ a.uploadedAt)

/-- `getDocuments`: all documents sorted by upload time descending
(JavaScript `Array.prototype.sort` is stable). -/
def getDocuments (s : MemStorage) : List Document :=
  s.documents.mergeSort docDesc

/-- `getDocument`. -/
def getDocument (s : MemStorage) (id : Nat) : Option Document :=
  s.documents.find? (fun d_ => d_.id == id)

/-- `createDocument`: next id, `uploadedAt = new Date()`. -/
def createDocument (s : MemStorage) (ins : InsertDocument) : Document × MemStorage :=
  let id := s.documentIdCounter
  let doc : Document :=
    { id := id, name := ins.name, originalName := ins.originalName
      mimeType := ins.mimeType, size := ins.size, content := ins.content
      uploadedAt := s.clock }
  (doc, { s with documents := mapSet Document.id s.documents id doc
                 documentIdCounter := id + 1, clock := s.clock + 1 })

/-- `deleteDocument`: `this.documents.delete(id)`. -/
def deleteDocument (s : MemStorage) (id : Nat) : Bool × MemStorage :=
  (mapHas Document.id s.documents id,
   { s with documents := mapErase Document.id s.documents id })

/-- The comparator of `getSessions`: last-message time descending. -/
def sessDesc (a b : Session) : Bool :=
  decide (b.lastMessageAt ≤ a.lastMessageAt)

/-- `getSessions`: sessions of a document, sorted by `lastMessageAt`
descending. -/
def getSessions (s : MemStorage) (documentId : Nat) : List Session :=
  (s.sessions.filter (fun x => x.documentId == documentId)).mergeSort sessDesc

/-- `getSession`. -/
def getSession (s : MemStorage) (id : Nat) : Option Session :=
  s.sessions.find? (fun x => x.id == id)

/-- `createSession`: next id, `createdAt = lastMessageAt = now`. -/
def createSession (s : MemStorage) (ins : InsertSession) : Session × MemStorage :=
  let id := s.sessionIdCounter
  let sess : Session :=
    { id := id, documentId := ins.documentId, name := ins.name
      createdAt := s.clock, lastMessageAt := s.clock }
  (sess, { s with sessions := mapSet Session.id s.sessions id sess
                  sessionIdCounter := id + 1, clock := s.clock + 1 })

/-- `updateSessionName`: look the session up; if absent return `undefined`,
otherwise replace its `name` and re-`set` it. -/
def updateSessionName (s : MemStorage) (id : Nat) (name : String) :
    Option Session × MemStorage :=
  match s.sessions.find? (fun x => x.id == id) with
  | none => (none, s)
  | some sess =>
      let updated := { sess with name := name }
      (some updated, { s with sessions := mapSet Session.id s.sessions id updated })

/-- The comparator of `getMessages`: timestamp ascending. -/
def msgAsc (a b : Message) : Bool :=
  decide (a.timestamp ≤ b.timestamp)

/-- `getMessages`: messages whose (misnamed) `documentId` field equals the
session id, sorted by timestamp ascending. -/
def getMessages (s : MemStorage) (sessionId : Nat) : List Message :=
  (s.messages.filter (fun m => m.documentId == sessionId)).mergeSort msgAsc

/-- `createMessage`: next id, `timestamp = now`, insert; then find the
session whose id equals the message's `documentId` field and bump its
`lastMessageAt` (silently doing nothing when there is no such session). -/
def createMessage (s : MemStorage) (ins : InsertMessage) : Message × MemStorage :=
  let id := s.messageIdCounter
  let msg : Message :=
    { id := id, documentId := ins.documentId, role := ins.role
      content := ins.content, timestamp := s.clock }
  let messages := mapSet Message.id s.messages id msg
  match s.sessions.find? (fun x => x.id == ins.documentId) with
  | some sess =>
      let updated := { sess with lastMessageAt := s.clock }
      (msg, { s with messages := messages, messageIdCounter := id + 1
                     sessions := mapSet Session.id s.sessions sess.id updated
                     clock := s.clock + 1 })
  | none =>
      (msg, { s with messages := messages, messageIdCounter := id + 1
                     clock := s.clock + 1 })

end MemStorage

/-- A role-tagged message as sent to the GROQ completion API
(the `Message` interface of `server/utils/groqApi.ts`). -/
structure ChatMsg where
  role : String
  content : String
  deriving Repr, DecidableEq

/-- The failure modes of `POST /api/chat` that the route distinguishes:
404 document, 404 session, and the 500 produced when the completion
client throws (its message passed through). -/
inductive ChatError where
  | documentNotFound
  | sessionNotFound
  | llmError (msg : String)
  deriving Repr, DecidableEq

/-- The success payload of `POST /api/chat`. -/
structure ChatResult where
  session : Session
  userMessage : Message
  aiMessage : Message
  deriving Repr, DecidableEq

/-- `Chat about ${document.name}`: the display name given to sessions
created by the routes. -/
def chatName (doc : Document) : String :=
  "Chat about " ++ doc.name

/-- The fixed instructional text preceding the document content in the
system prompt of `POST /api/chat`. -/
def promptIntro : String :=
  "You\x27re an AI assistant specialized in helping users analyze documents. Refer to the document content below when answering questions. If you can\x27t find relevant information in the document, be honest about it.\n\nDocument Content:\n"

/-- The fixed instructional text following the document content in the
system prompt of `POST /api/chat`. -/
def promptOutro : String :=
  "\n\nAnswer the question based on the document content. Be clear, concise, and helpful."

/-- The system prompt built by `POST /api/chat` from the supplied
document's content. -/
def systemPromptFor (doc : Document) : String :=
  promptIntro ++ doc.content ++ promptOutro

/-- `formattedMessages` of `POST /api/chat`: the system prompt followed by
the full session history with roles preserved. -/
def chatPrompt (doc : Document) (msgs : List Message) : List ChatMsg :=
  { role := "system", content := systemPromptFor doc } ::
    msgs.map (fun msg => { role := msg.role, content := msg.content })

/-- The `POST /api/chat` handler of `registerRoutes`
(`client/src/lib/types.ts`, second part of the file), after body
validation.  The completion client (`groqChatCompletion`) is a parameter;
the handler returns the final store state together with the HTTP outcome.
`if (sessionId)` is JavaScript truthiness: both an absent `sessionId` and
`sessionId = 0` take the session-creation branch. -/
def handleChat (s : MemStorage) (llm : List ChatMsg → Except String String)
    (documentId : Nat) (message : String) (sessionId : Option Nat) :
    MemStorage × Except ChatError ChatResult :=
  match s.getDocument documentId with
  | none => (s, .error .documentNotFound)
  | some document =>
    let resolved : Except ChatError (Session × MemStorage) :=
      match sessionId with
      | some sid =>
          if sid ≠ 0 then
            match s.getSession sid with
            | none => .error .sessionNotFound
            | some sess => .ok (sess, s)
          else
            .ok (s.createSession { documentId := documentId, name := chatName document })
      | none =>
          .ok (s.createSession { documentId := documentId, name := chatName document })
    match resolved with
    | .error e => (s, .error e)
    | .ok (session, s1) =>
      let p := s1.createMessage
        { documentId := session.id, role := "user", content := message }
      let userMessage := p.1
      let s2 := p.2
      let sessionMessages := s2.getMessages session.id
      match llm (chatPrompt document sessionMessages) with
      | .error e => (s2, .error (.llmError e))
      | .ok responseContent =>
          let q := s2.createMessage
            { documentId := session.id, role := "assistant", content := responseContent }
          (q.2, .ok { session := session, userMessage := userMessage, aiMessage := q.1 })

/-- An uploaded file as delivered by multer's memory storage: original
name, declared MIME type, byte size, raw bytes. -/
structure UploadedFile where
  originalname : String
  mimetype : String
  size : Nat
  buffer : List Nat
  deriving Repr, DecidableEq

/-- `validFileTypes` of `shared/schema.ts`. -/
def validFileTypes : List String :=
  ["application/pdf", "application/msword",
   "application/vnd.openxmlformats-officedocument.wordprocessingml.document",
   "text/plain"]

/-- `processFile` of `server/utils/fileProcessing.ts`.  The PDF and
DOC/DOCX extractors and the UTF-8 decoding performed by
`fs.readFile(_, "utf8")` for `text/plain` are external collaborators,
passed as parameters.  A thrown extraction error propagates as `.error`. -/
def processFile (utf8Decode : List Nat → String)
    (pdfExtract docExtract : List Nat → Except String String)
    (file : UploadedFile) : Except String String :=
  if file.mimetype == "application/pdf" then
    pdfExtract file.buffer
  else if file.mimetype == "application/msword" ||
      file.mimetype == "application/vnd.openxmlformats-officedocument.wordprocessingml.document" then
    docExtract file.buffer
  else if file.mimetype == "text/plain" then
    .ok (utf8Decode file.buffer)
  else
    .error "Unsupported file type"

/-- The failure modes of `POST /api/documents/upload`: 400 missing file,
400 invalid format, 400 `Failed to process file` (falsy extracted
content), and the 500 produced when `processFile` throws. -/
inductive UploadError where
  | noFile
  | invalidFormat
  | emptyContent
  | processError (msg : String)
  deriving Repr, DecidableEq

/-- The success payload of `POST /api/documents/upload`. -/
structure UploadResult where
  document : Document
  session : Session
  deriving Repr, DecidableEq

/-- The canned greeting seeded as the initial system message. -/
def greeting (doc : Document) : String :=
  "I\x27ve processed your " ++ doc.name ++ " document. What would you like to know about it?"

/-- The `POST /api/documents/upload` handler of `registerRoutes`, after
multer has run: check the MIME type against `validFileTypes`, extract the
content, reject falsy (empty) content, then create the Document, an
initial Session, and the seeded system Message. -/
def uploadDocument (s : MemStorage) (utf8Decode : List Nat → String)
    (pdfExtract docExtract : List Nat → Except String String)
    (file : Option UploadedFile) : MemStorage × Except UploadError UploadResult :=
  match file with
  | none => (s, .error .noFile)
  | some f =>
    if ¬ validFileTypes.contains f.mimetype then
      (s, .error .invalidFormat)
    else
      match processFile utf8Decode pdfExtract docExtract f with
      | .error e => (s, .error (.processError e))
      | .ok content =>
        if content == "" then
          (s, .error .emptyContent)
        else
          let pd := s.createDocument
            { name := f.originalname, originalName := f.originalname
              mimeType := f.mimetype, size := f.size, content := content }
          let document := pd.1
          let ps := pd.2.createSession
            { documentId := document.id, name := chatName document }
          let session := ps.1
          let pm := ps.2.createMessage
            { documentId := session.id, role := "system", content := greeting document }
          (pm.2, .ok { document := document, session := session })

/-- The mutating operations of the `IStorage` interface, for reasoning
about arbitrary operation sequences against the store. -/
inductive StoreOp where
  | createUser (u : InsertUser)
  | createDocument (d_ : InsertDocument)
  | deleteDocument (id : Nat)
  | createSession (x : InsertSession)
  | updateSessionName (id : Nat) (name : String)
  | createMessage (m : InsertMessage)
  deriving Repr, DecidableEq

/-- Run one store operation, keeping only the resulting state. -/
def applyOp (s : MemStorage) : StoreOp → MemStorage
  | .createUser u => (s.createUser u).2
  | .createDocument d_ => (s.createDocument d_).2
  | .deleteDocument id => (s.deleteDocument id).2
  | .createSession x => (s.createSession x).2
  | .updateSessionName id name => (s.updateSessionName id name).2
  | .createMessage m => (s.createMessage m).2

/-- Run a sequence of store operations. -/
def applyOps (s : MemStorage) : List StoreOp → MemStorage
  | [] => s
  | op :: ops => applyOps (applyOp s op) ops

/-- The identifiers assigned by the creation operations of one entity kind
along an operation sequence: `c` projects that kind's counter and `p`
recognises that kind's create operation. -/
def idsAssigned (c : MemStorage → Nat) (p : StoreOp → Bool) :
    MemStorage → List StoreOp → List Nat
  | _, [] => []
  | s, op :: ops =>
      if p op then c s :: idsAssigned c p (applyOp s op) ops
      else idsAssigned c p (applyOp s op) ops

/-- Recogniser for `createUser`. -/
def isCreateUser : StoreOp → Bool
  | .createUser _ => true
  | _ => false

/-- Recogniser for `createDocument`. -/
def isCreateDocument : StoreOp → Bool
  | .createDocument _ => true
  | _ => false

/-- Recogniser for `createSession`. -/
def isCreateSession : StoreOp → Bool
  | .createSession _ => true
  | _ => false

/-- Recogniser for `createMessage`. -/
def isCreateMessage : StoreOp → Bool
  | .createMessage _ => true
  | _ => false

/-- Well-formedness of a store state.  Every clause is a structural
consequence of how `MemStorage` uses its maps, counters and the wall
clock: map keys are unique (JavaScript `Map`), every stored id was
assigned by a counter that has since moved past it, every stored
timestamp was taken before the current instant, and messages sit in the
map in insertion order, which is timestamp order. -/
structure WF (s : MemStorage) : Prop where
  dIdsLt : ∀ d_ ∈ s.documents, d_.id < s.documentIdCounter
  sIdsLt : ∀ x ∈ s.sessions, x.id < s.sessionIdCounter
  sCounterPos : 0 < s.sessionIdCounter
  sIdsPos : ∀ x ∈ s.sessions, 0 < x.id
  sNodup : (s.sessions.map Session.id).Nodup
  sTimesLt : ∀ x ∈ s.sessions, x.lastMessageAt < s.clock
  mIdsLt : ∀ m ∈ s.messages, m.id < s.messageIdCounter
  mTimesLt : ∀ m ∈ s.messages, m.timestamp < s.clock
  mSorted : s.messages.Pairwise (fun a b => a.timestamp ≤ b.timestamp)

theorem wf_init : WF MemStorage.init := by
  constructor <;> simp [MemStorage.init]

theorem mapSet_append {α : Type} (key : α → Nat) (l : List α) (k : Nat) (v : α)
    (h : ∀ x ∈ l, key x ≠ k) : mapSet key l k v = l ++ [v] := by
  induction l with
  | nil => rfl
  | cons x xs ih =>
      have hx : (key x == k) = false := by
        simpa using h x (List.mem_cons_self x xs)
      simp only [mapSet, hx, Bool.false_eq_true, if_false, List.cons_append,
        List.cons.injEq, true_and]
      exact ih (fun y hy => h y (List.mem_cons_of_mem x hy))

theorem find?_mapSet_self {α : Type} (key : α → Nat) (l : List α) (k : Nat) (v : α)
    (hv : key v = k) :
    (mapSet key l k v).find? (fun x => key x == k) = some v := by
  induction l with
  | nil => simp [mapSet, List.find?, hv]
  | cons x xs ih =>
      by_cases hx : key x = k
      · simp [mapSet, hx, List.find?, hv]
      · simp only [mapSet, beq_iff_eq, hx, if_false]
        rw [List.find?_cons_of_neg]
        · exact ih
        · simp [hx]

theorem mem_mapSet {α : Type} {key : α → Nat} {l : List α} {k : Nat} {v : α}
    {y : α} (hy : y ∈ mapSet key l k v) : y ∈ l ∨ y = v := by
  induction l with
  | nil => simp [mapSet] at hy; right; exact hy
  | cons x xs ih =>
      by_cases hx : key x = k
      · simp only [mapSet, beq_iff_eq, hx, if_true] at hy
        rcases List.mem_cons.1 hy with h | h
        · right; exact h
        · left; exact List.mem_cons_of_mem x h
      · simp only [mapSet, beq_iff_eq, hx, if_false, List.mem_cons] at hy
        rcases hy with h | h
        · left; simp [h]
        · rcases ih h with h' | h'
          · left; exact List.mem_cons_of_mem x h'
          · right; exact h'

theorem mapSet_map_key_of_hit {α : Type} (key : α → Nat) (l : List α) (k : Nat)
    (v : α) (hv : key v = k) (hhit : ∃ x ∈ l, key x = k) :
    (mapSet key l k v).map key = l.map key := by
  induction l with
  | nil => simp at hhit
  | cons x xs ih =>
      by_cases hx : key x = k
      · simp [mapSet, hx, hv]
      · simp only [mapSet, beq_iff_eq, hx, if_false, List.map_cons, List.cons.injEq, true_and]
        apply ih
        rcases hhit with ⟨y, hy, hyk⟩
        rcases List.mem_cons.1 hy with h | h
        · exact absurd (h ▸ hyk) hx
        · exact ⟨y, h, hyk⟩

theorem mapSet_eq_map {α : Type} (key : α → Nat) (l : List α) (k : Nat) (v : α)
    (hnd : (l.map key).Nodup) (hhit : ∃ x ∈ l, key x = k) :
    mapSet key l k v = l.map (fun x => if key x = k then v else x) := by
  induction l with
  | nil => simp at hhit
  | cons x xs ih =>
      by_cases hx : key x = k
      · have hb : (key x == k) = true := by simp [hx]
        have hrest : ∀ y ∈ xs, key y ≠ k := by
          intro y hy
          rw [List.map_cons] at hnd
          have hnotin := (List.nodup_cons.1 hnd).1
          intro hyk
          exact hnotin (hx ▸ hyk ▸ List.mem_map_of_mem key hy)
        have hmap : xs.map (fun z => if key z = k then v else z) = xs := by
          have hcg : ∀ y ∈ xs, (fun z => if key z = k then v else z) y = id y := by
            intro y hy; simp [hrest y hy]
          rw [List.map_congr_left hcg, List.map_id]
        simp only [mapSet, hb, if_true, List.map_cons, if_pos hx]
        exact congrArg (v :: ·) hmap.symm
      · have hb : (key x == k) = false := by simp [hx]
        simp only [mapSet, hb, Bool.false_eq_true, if_false, List.map_cons, if_neg hx,
          List.cons.injEq, true_and]
        apply ih (by rw [List.map_cons] at hnd; exact (List.nodup_cons.1 hnd).2)
        rcases hhit with ⟨y, hy, hyk⟩
        rcases List.mem_cons.1 hy with h | h
        · exact absurd (h ▸ hyk) hx
        · exact ⟨y, h, hyk⟩

theorem mapErase_of_miss {α : Type} (key : α → Nat) (l : List α) (k : Nat)
    (h : ∀ x ∈ l, key x ≠ k) : mapErase key l k = l := by
  induction l with
  | nil => rfl
  | cons x xs ih =>
      have hx : ¬ key x = k := h x (List.mem_cons_self x xs)
      simp only [mapErase, beq_iff_eq, hx, if_false, List.cons.injEq, true_and]
      exact ih (fun y hy => h y (List.mem_cons_of_mem x hy))

theorem mapHas_iff {α : Type} (key : α → Nat) (l : List α) (k : Nat) :
    mapHas key l k = true ↔ ∃ x ∈ l, key x = k := by
  simp [mapHas]

/-- The record created by `createDocument` at state `s`. -/
def newDocument (s : MemStorage) (ins : InsertDocument) : Document :=
  { id := s.documentIdCounter, name := ins.name, originalName := ins.originalName
    mimeType := ins.mimeType, size := ins.size, content := ins.content
    uploadedAt := s.clock }

/-- The record created by `createSession` at state `s`. -/
def newSession (s : MemStorage) (ins : InsertSession) : Session :=
  { id := s.sessionIdCounter, documentId := ins.documentId, name := ins.name
    createdAt := s.clock, lastMessageAt := s.clock }

/-- The record created by `createMessage` at state `s`. -/
def newMessage (s : MemStorage) (ins : InsertMessage) : Message :=
  { id := s.messageIdCounter, documentId := ins.documentId, role := ins.role
    content := ins.content, timestamp := s.clock }

theorem createDocument_eq (s : MemStorage) (ins : InsertDocument)
    (h : ∀ d_ ∈ s.documents, d_.id ≠ s.documentIdCounter) :
    s.createDocument ins =
      (newDocument s ins,
       { s with documents := s.documents ++ [newDocument s ins]
                documentIdCounter := s.documentIdCounter + 1
                clock := s.clock + 1 }) := by
  simp only [MemStorage.createDocument, newDocument]
  rw [mapSet_append Document.id s.documents s.documentIdCounter _ h]

theorem createSession_eq (s : MemStorage) (ins : InsertSession)
    (h : ∀ x ∈ s.sessions, x.id ≠ s.sessionIdCounter) :
    s.createSession ins =
      (newSession s ins,
       { s with sessions := s.sessions ++ [newSession s ins]
                sessionIdCounter := s.sessionIdCounter + 1
                clock := s.clock + 1 }) := by
  simp only [MemStorage.createSession, newSession]
  rw [mapSet_append Session.id s.sessions s.sessionIdCounter _ h]

theorem createMessage_eq_some (s : MemStorage) (ins : InsertMessage) (sess : Session)
    (hm : ∀ m ∈ s.messages, m.id ≠ s.messageIdCounter)
    (hfind : s.sessions.find? (fun x => x.id == ins.documentId) = some sess) :
    s.createMessage ins =
      (newMessage s ins,
       { s with messages := s.messages ++ [newMessage s ins]
                messageIdCounter := s.messageIdCounter + 1
                sessions := mapSet Session.id s.sessions sess.id
                  { sess with lastMessageAt := s.clock }
                clock := s.clock + 1 }) := by
  simp only [MemStorage.createMessage, newMessage, hfind]
  rw [mapSet_append Message.id s.messages s.messageIdCounter _ hm]

theorem createMessage_eq_none (s : MemStorage) (ins : InsertMessage)
    (hm : ∀ m ∈ s.messages, m.id ≠ s.messageIdCounter)
    (hfind : s.sessions.find? (fun x => x.id == ins.documentId) = none) :
    s.createMessage ins =
      (newMessage s ins,
       { s with messages := s.messages ++ [newMessage s ins]
                messageIdCounter := s.messageIdCounter + 1
                clock := s.clock + 1 }) := by
  simp only [MemStorage.createMessage, newMessage, hfind]
  rw [mapSet_append Message.id s.messages s.messageIdCounter _ hm]

theorem wf_freshDoc {s : MemStorage} (hwf : WF s) :
    ∀ d_ ∈ s.documents, d_.id ≠ s.documentIdCounter :=
  fun d_ hd => Nat.ne_of_lt (hwf.dIdsLt d_ hd)

theorem wf_freshSess {s : MemStorage} (hwf : WF s) :
    ∀ x ∈ s.sessions, x.id ≠ s.sessionIdCounter :=
  fun x hx => Nat.ne_of_lt (hwf.sIdsLt x hx)

theorem wf_freshMsg {s : MemStorage} (hwf : WF s) :
    ∀ m ∈ s.messages, m.id ≠ s.messageIdCounter :=
  fun m hm => Nat.ne_of_lt (hwf.mIdsLt m hm)

theorem wf_createDocument {s : MemStorage} (hwf : WF s) (ins : InsertDocument) :
    WF (s.createDocument ins).2 := by
  rw [createDocument_eq s ins (wf_freshDoc hwf)]
  constructor
  · intro d_ hd
    rcases List.mem_append.1 hd with h | h
    · exact Nat.lt_succ_of_lt (hwf.dIdsLt d_ h)
    · simp only [List.mem_singleton] at h
      subst h; exact Nat.lt_succ_self _
  · exact fun x hx => hwf.sIdsLt x hx
  · exact hwf.sCounterPos
  · exact fun x hx => hwf.sIdsPos x hx
  · exact hwf.sNodup
  · exact fun x hx => Nat.lt_succ_of_lt (hwf.sTimesLt x hx)
  · exact fun m hm => hwf.mIdsLt m hm
  · exact fun m hm => Nat.lt_succ_of_lt (hwf.mTimesLt m hm)
  · exact hwf.mSorted

theorem wf_createSession {s : MemStorage} (hwf : WF s) (ins : InsertSession) :
    WF (s.createSession ins).2 := by
  rw [createSession_eq s ins (wf_freshSess hwf)]
  constructor
  · exact fun d_ hd => hwf.dIdsLt d_ hd
  · intro x hx
    rcases List.mem_append.1 hx with h | h
    · exact Nat.lt_succ_of_lt (hwf.sIdsLt x h)
    · simp only [List.mem_singleton] at h
      subst h; exact Nat.lt_succ_self _
  · exact Nat.lt_succ_of_lt hwf.sCounterPos
  · intro x hx
    rcases List.mem_append.1 hx with h | h
    · exact hwf.sIdsPos x h
    · simp only [List.mem_singleton] at h
      subst h; exact hwf.sCounterPos
  · simp only [List.map_append, List.map_cons, List.map_nil]
    rw [List.nodup_append]
    refine ⟨hwf.sNodup, List.nodup_singleton _, ?_⟩
    intro a ha hb
    simp only [List.mem_singleton] at hb
    subst hb
    rcases List.mem_map.1 ha with ⟨x, hx, hax⟩
    exact wf_freshSess hwf x hx (by simpa [newSession] using hax)
  · intro x hx
    rcases List.mem_append.1 hx with h | h
    · exact Nat.lt_succ_of_lt (hwf.sTimesLt x h)
    · simp only [List.mem_singleton] at h
      subst h; exact Nat.lt_succ_self _
  · exact fun m hm => hwf.mIdsLt m hm
  · exact fun m hm => Nat.lt_succ_of_lt (hwf.mTimesLt m hm)
  · exact hwf.mSorted

theorem wf_createMessage {s : MemStorage} (hwf : WF s) (ins : InsertMessage) :
    WF (s.createMessage ins).2 := by
  cases hfind : s.sessions.find? (fun x => x.id == ins.documentId) with
  | none =>
      rw [createMessage_eq_none s ins (wf_freshMsg hwf) hfind]
      constructor
      · exact fun d_ hd => hwf.dIdsLt d_ hd
      · exact fun x hx => hwf.sIdsLt x hx
      · exact hwf.sCounterPos
      · exact fun x hx => hwf.sIdsPos x hx
      · exact hwf.sNodup
      · exact fun x hx => Nat.lt_succ_of_lt (hwf.sTimesLt x hx)
      · intro m hm
        rcases List.mem_append.1 hm with h | h
        · exact Nat.lt_succ_of_lt (hwf.mIdsLt m h)
        · simp only [List.mem_singleton] at h
          subst h; exact Nat.lt_succ_self _
      · intro m hm
        rcases List.mem_append.1 hm with h | h
        · exact Nat.lt_succ_of_lt (hwf.mTimesLt m h)
        · simp only [List.mem_singleton] at h
          subst h; exact Nat.lt_succ_self _
      · rw [List.pairwise_append]
        refine ⟨hwf.mSorted, List.pairwise_singleton _ _, ?_⟩
        intro a ha b hb
        simp only [List.mem_singleton] at hb
        subst hb
        exact Nat.le_of_lt (hwf.mTimesLt a ha)
  | some sess =>
      have hsid : sess.id = ins.documentId := by
        have := List.find?_some hfind
        simpa using this
      have hmem : sess ∈ s.sessions := List.mem_of_find?_eq_some hfind
      have hkeys : (mapSet Session.id s.sessions sess.id
          { sess with lastMessageAt := s.clock }).map Session.id =
          s.sessions.map Session.id :=
        mapSet_map_key_of_hit Session.id s.sessions sess.id _ rfl ⟨sess, hmem, rfl⟩
      rw [createMessage_eq_some s ins sess (wf_freshMsg hwf) hfind]
      constructor
      · exact fun d_ hd => hwf.dIdsLt d_ hd
      · intro x hx
        rcases mem_mapSet hx with h | h
        · exact hwf.sIdsLt x h
        · subst h
          exact hwf.sIdsLt sess hmem
      · exact hwf.sCounterPos
      · intro x hx
        rcases mem_mapSet hx with h | h
        · exact hwf.sIdsPos x h
        · subst h
          exact hwf.sIdsPos sess hmem
      · rw [hkeys]; exact hwf.sNodup
      · intro x hx
        rcases mem_mapSet hx with h | h
        · exact Nat.lt_succ_of_lt (hwf.sTimesLt x h)
        · subst h; exact Nat.lt_succ_self _
      · intro m hm
        rcases List.mem_append.1 hm with h | h
        · exact Nat.lt_succ_of_lt (hwf.mIdsLt m h)
        · simp only [List.mem_singleton] at h
          subst h; exact Nat.lt_succ_self _
      · intro m hm
        rcases List.mem_append.1 hm with h | h
        · exact Nat.lt_succ_of_lt (hwf.mTimesLt m h)
        · simp only [List.mem_singleton] at h
          subst h; exact Nat.lt_succ_self _
      · rw [List.pairwise_append]
        refine ⟨hwf.mSorted, List.pairwise_singleton _ _, ?_⟩
        intro a ha b hb
        simp only [List.mem_singleton] at hb
        subst hb
        exact Nat.le_of_lt (hwf.mTimesLt a ha)

theorem msgAsc_trans : ∀ a b c : Message, MemStorage.msgAsc a b → MemStorage.msgAsc b c →
    MemStorage.msgAsc a c := by
  intro a b c hab hbc
  simp only [MemStorage.msgAsc, decide_eq_true_eq] at *
  omega

theorem msgAsc_total : ∀ a b : Message, MemStorage.msgAsc a b || MemStorage.msgAsc b a := by
  intro a b
  simp only [MemStorage.msgAsc, Bool.or_eq_true, decide_eq_true_eq]
  omega

/-- On a store whose message map is in timestamp order (every reachable
store is), `getMessages` is just the filter by session reference. -/
theorem getMessages_eq_filter {s : MemStorage}
    (hs : s.messages.Pairwise (fun a b => a.timestamp ≤ b.timestamp)) (sid : Nat) :
    s.getMessages sid = s.messages.filter (fun m => m.documentId == sid) := by
  unfold MemStorage.getMessages
  apply List.mergeSort_of_sorted
  exact (hs.filter (fun m => m.documentId == sid)).imp
    (fun h => decide_eq_true h)

theorem handleChat_noDoc (s : MemStorage) (llm : List ChatMsg → Except String String)
    (documentId : Nat) (message : String) (sessionId : Option Nat)
    (hdoc : s.getDocument documentId = none) :
    handleChat s llm documentId message sessionId = (s, .error .documentNotFound) := by
  simp only [handleChat, hdoc]

theorem handleChat_noSession (s : MemStorage) (llm : List ChatMsg → Except String String)
    (documentId : Nat) (message : String) (sid : Nat) (doc : Document)
    (hdoc : s.getDocument documentId = some doc)
    (hsid : sid ≠ 0)
    (hsess : s.getSession sid = none) :
    handleChat s llm documentId message (some sid) = (s, .error .sessionNotFound) := by
  simp only [handleChat, hdoc, hsid, hsess, ne_eq, not_false_eq_true, if_true]

theorem handleChat_existing (s : MemStorage) (llm : List ChatMsg → Except String String)
    (documentId : Nat) (message : String) (sid : Nat) (doc : Document) (sess : Session)
    (hdoc : s.getDocument documentId = some doc)
    (hsid : sid ≠ 0)
    (hsess : s.getSession sid = some sess) :
    handleChat s llm documentId message (some sid) =
      (let p := s.createMessage
         { documentId := sess.id, role := "user", content := message }
       match llm (chatPrompt doc (p.2.getMessages sess.id)) with
       | .error e => (p.2, .error (.llmError e))
       | .ok reply =>
           let q := p.2.createMessage
             { documentId := sess.id, role := "assistant", content := reply }
           (q.2, .ok { session := sess, userMessage := p.1, aiMessage := q.1 })) := by
  simp only [handleChat, hdoc, hsid, hsess, ne_eq, not_false_eq_true, if_true]

theorem handleChat_fresh (s : MemStorage) (llm : List ChatMsg → Except String String)
    (documentId : Nat) (message : String) (sessionId : Option Nat) (doc : Document)
    (hdoc : s.getDocument documentId = some doc)
    (hsid : sessionId = none ∨ sessionId = some 0) :
    handleChat s llm documentId message sessionId =
      (let c := s.createSession { documentId := documentId, name := chatName doc }
       let p := c.2.createMessage
         { documentId := c.1.id, role := "user", content := message }
       match llm (chatPrompt doc (p.2.getMessages c.1.id)) with
       | .error e => (p.2, .error (.llmError e))
       | .ok reply =>
           let q := p.2.createMessage
             { documentId := c.1.id, role := "assistant", content := reply }
           (q.2, .ok { session := c.1, userMessage := p.1, aiMessage := q.1 })) := by
  rcases hsid with h | h <;> subst h <;>
    simp only [handleChat, hdoc, ne_eq, not_true_eq_false, if_false]

theorem mapErase_decomp {α : Type} (key : α → Nat) (l : List α) (k : Nat)
    (h : ∃ x ∈ l, key x = k) :
    ∃ l₁ x l₂, l = l₁ ++ x :: l₂ ∧ key x = k ∧ (∀ y ∈ l₁, key y ≠ k) ∧
      mapErase key l k = l₁ ++ l₂ := by
  induction l with
  | nil => simp at h
  | cons z zs ih =>
      by_cases hz : key z = k
      · exact ⟨[], z, zs, by simp, hz, by simp, by simp [mapErase, hz]⟩
      · have hmem : ∃ x ∈ zs, key x = k := by
          rcases h with ⟨x, hx, hxk⟩
          rcases List.mem_cons.1 hx with h' | h'
          · exact absurd (h' ▸ hxk) hz
          · exact ⟨x, h', hxk⟩
        rcases ih hmem with ⟨l₁, x, l₂, hdec, hxk, hl₁, herase⟩
        refine ⟨z :: l₁, x, l₂, by simp [hdec], hxk, ?_, ?_⟩
        · intro y hy
          rcases List.mem_cons.1 hy with h' | h'
          · exact h' ▸ hz
          · exact hl₁ y h'
        · simp [mapErase, hz, herase]

/-- C7 — `deleteDocument(id)` returns true exactly when a document with
that id existed (and it is then removed), false otherwise; in both cases
the sessions map, the messages map, the users map and all four counters
are left unchanged: no cascade deletion. -/
theorem deleteDocument_spec : ∀ (s : MemStorage) (id : Nat),
    ((s.deleteDocument id).1 = true ↔ ∃ d_ ∈ s.documents, d_.id = id) ∧
    ((s.deleteDocument id).1 = false → (s.deleteDocument id).2.documents = s.documents) ∧
    ((s.deleteDocument id).1 = true →
      ∃ l₁ d_ l₂, s.documents = l₁ ++ d_ :: l₂ ∧ d_.id = id ∧ (∀ y ∈ l₁, y.id ≠ id) ∧
        (s.deleteDocument id).2.documents = l₁ ++ l₂) ∧
    (s.deleteDocument id).2.sessions = s.sessions ∧
    (s.deleteDocument id).2.messages = s.messages ∧
    (s.deleteDocument id).2.users = s.users ∧
    (s.deleteDocument id).2.userIdCounter = s.userIdCounter ∧
    (s.deleteDocument id).2.documentIdCounter = s.documentIdCounter ∧
    (s.deleteDocument id).2.sessionIdCounter = s.sessionIdCounter ∧
    (s.deleteDocument id).2.messageIdCounter = s.messageIdCounter := by
  intro s id
  refine ⟨mapHas_iff Document.id s.documents id, ?_, ?_, rfl, rfl, rfl, rfl, rfl, rfl, rfl⟩
  · intro hfalse
    have hno : ∀ x ∈ s.documents, Document.id x ≠ id := by
      intro x hx hxk
      have : mapHas Document.id s.documents id = true :=
        (mapHas_iff Document.id s.documents id).2 ⟨x, hx, hxk⟩
      simp only [MemStorage.deleteDocument] at hfalse
      rw [this] at hfalse
      exact Bool.true_eq_false.mp hfalse
    show mapErase Document.id s.documents id = s.documents
    exact mapErase_of_miss Document.id s.documents id hno
  · intro htrue
    have hex : ∃ x ∈ s.documents, Document.id x = id :=
      (mapHas_iff Document.id s.documents id).1 htrue
    exact mapErase_decomp Document.id s.documents id hex

def sampleDoc : Document :=
  { id := 1, name := "notes.txt", originalName := "notes.txt"
    mimeType := "text/plain", size := 11, content := "Hello world", uploadedAt := 0 }

def sampleSess : Session :=
  { id := 1, documentId := 1, name := "Chat about notes.txt"
    createdAt := 1, lastMessageAt := 1 }

/-- A small reachable-shaped store: one document, one session, no
messages. -/
def sampleStore : MemStorage :=
  { users := [], documents := [sampleDoc], sessions := [sampleSess], messages := []
    userIdCounter := 1, documentIdCounter := 2, sessionIdCounter := 2
    messageIdCounter := 1, clock := 2 }

theorem wf_sampleStore : WF sampleStore := by
  constructor <;> simp [sampleStore, sampleDoc, sampleSess]

theorem deleteDocument_spec_witness :
    (sampleStore.deleteDocument 1).1 = true ∧
    (sampleStore.deleteDocument 1).2.sessions = sampleStore.sessions ∧
    (sampleStore.deleteDocument 1).2.messages = sampleStore.messages := by
  have h := deleteDocument_spec sampleStore 1
  exact ⟨h.1.mpr ⟨sampleDoc, by simp [sampleStore], rfl⟩, h.2.2.2.1, h.2.2.2.2.1⟩

/-- C10 — `updateSessionName(id, name)` replaces only the session's name
field, leaving its other fields unchanged and touching no other session;
for an absent id it returns `undefined` and the store is unchanged. -/
theorem updateSessionName_spec : ∀ (s : MemStorage) (id : Nat) (name : String),
    (s.getSession id = none → s.updateSessionName id name = (none, s)) ∧
    (∀ sess, (s.sessions.map Session.id).Nodup → s.getSession id = some sess →
      s.updateSessionName id name =
        (some { sess with name := name },
         { s with sessions := (s.sessions.map
             (fun x => if x.id = id then { x with name := name } else x)) })) := by
  intro s id name
  constructor
  · intro hnone
    simp only [MemStorage.updateSessionName]
    rw [show s.sessions.find? (fun x => x.id == id) = none from hnone]
  · intro sess hnd hsome
    have hfind : s.sessions.find? (fun x => x.id == id) = some sess := hsome
    have hsid : sess.id = id := by simpa using List.find?_some hfind
    have hmem : sess ∈ s.sessions := List.mem_of_find?_eq_some hfind
    simp only [MemStorage.updateSessionName, hfind]
    have hset := mapSet_eq_map Session.id s.sessions id
      { sess with name := name } hnd ⟨sess, hmem, hsid⟩
    rw [hset]
    have hcong : ∀ x ∈ s.sessions,
        (fun x => if Session.id x = id then { sess with name := name } else x) x =
        (fun x => if x.id = id then { x with name := name } else x) x := by
      intro x hx
      by_cases hxid : x.id = id
      · have : x = sess :=
          List.inj_on_of_nodup_map hnd hx hmem (by rw [hxid, hsid])
        subst this
        simp [hxid]
      · simp [hxid]
    rw [List.map_congr_left hcong]

theorem updateSessionName_spec_witness :
    sampleStore.updateSessionName 1 "renamed" =
      (some { sampleSess with name := "renamed" },
       { sampleStore with sessions := [{ sampleSess with name := "renamed" }] }) := by
  have h := (updateSessionName_spec sampleStore 1 "renamed").2 sampleSess
    (by simp [sampleStore, sampleSess]) (by simp [MemStorage.getSession, sampleStore, sampleSess])
  rw [h]
  simp [sampleStore, sampleSess]

/-- C4 — `getMessages(sessionId)` returns exactly the messages whose
session-reference field equals `sessionId` (a permutation of the filter),
sorted by timestamp ascending; `createMessage` bumps the referenced
session's `lastMessageAt` to the current instant, which is `≥` its
previous value, and silently does nothing to the sessions map when no
session with that id exists. -/
theorem getMessages_createMessage_spec :
    (∀ (s : MemStorage) (sid : Nat),
       (s.getMessages sid).Pairwise (fun a b => a.timestamp ≤ b.timestamp) ∧
       (s.getMessages sid).Perm (s.messages.filter (fun m => m.documentId == sid))) ∧
    (∀ (s : MemStorage) (ins : InsertMessage),
       (∀ x ∈ s.sessions, x.lastMessageAt ≤ s.clock) →
       (∀ sess, s.sessions.find? (fun x => x.id == ins.documentId) = some sess →
          (s.createMessage ins).2.getSession ins.documentId =
            some { sess with lastMessageAt := s.clock } ∧
          sess.lastMessageAt ≤ s.clock) ∧
       (s.sessions.find? (fun x => x.id == ins.documentId) = none →
          (s.createMessage ins).2.sessions = s.sessions)) := by
  constructor
  · intro s sid
    constructor
    · exact (List.sorted_mergeSort msgAsc_trans msgAsc_total _).imp
        (fun h => of_decide_eq_true h)
    · exact List.mergeSort_perm _ _
  · intro s ins hb
    constructor
    · intro sess hfind
      have hsid : sess.id = ins.documentId := by simpa using List.find?_some hfind
      have hmem : sess ∈ s.sessions := List.mem_of_find?_eq_some hfind
      constructor
      · simp only [MemStorage.createMessage, hfind, MemStorage.getSession]
        rw [← hsid]
        exact find?_mapSet_self Session.id s.sessions sess.id _ rfl
      · exact hb sess hmem
    · intro hfind
      simp only [MemStorage.createMessage, hfind]

theorem getMessages_createMessage_spec_witness :
    (sampleStore.createMessage { documentId := 1, role := "user", content := "hi" }).2.getSession 1 =
      some { sampleSess with lastMessageAt := 2 } ∧
    sampleSess.lastMessageAt ≤ 2 := by
  have h := ((getMessages_createMessage_spec.2 sampleStore
      { documentId := 1, role := "user", content := "hi" })
      (by intro x hx; simp [sampleStore] at hx; simp [hx, sampleSess, sampleStore])).1 sampleSess
    (by simp [sampleStore, sampleSess])
  simpa [sampleStore] using h

theorem applyOp_userCounter (s : MemStorage) (op : StoreOp) :
    (applyOp s op).userIdCounter =
      if isCreateUser op then s.userIdCounter + 1 else s.userIdCounter := by
  cases op with
  | updateSessionName id name =>
      simp only [applyOp, MemStorage.updateSessionName, isCreateUser]
      cases s.sessions.find? (fun x => x.id == id) <;> simp
  | createMessage m =>
      simp only [applyOp, MemStorage.createMessage, isCreateUser]
      cases s.sessions.find? (fun x => x.id == m.documentId) <;> simp
  | _ =>
      simp [applyOp, isCreateUser, MemStorage.createUser, MemStorage.createDocument,
        MemStorage.deleteDocument, MemStorage.createSession]

theorem applyOp_documentCounter (s : MemStorage) (op : StoreOp) :
    (applyOp s op).documentIdCounter =
      if isCreateDocument op then s.documentIdCounter + 1 else s.documentIdCounter := by
  cases op with
  | updateSessionName id name =>
      simp only [applyOp, MemStorage.updateSessionName, isCreateDocument]
      cases s.sessions.find? (fun x => x.id == id) <;> simp
  | createMessage m =>
      simp only [applyOp, MemStorage.createMessage, isCreateDocument]
      cases s.sessions.find? (fun x => x.id == m.documentId) <;> simp
  | _ =>
      simp [applyOp, isCreateDocument, MemStorage.createUser, MemStorage.createDocument,
        MemStorage.deleteDocument, MemStorage.createSession]

theorem applyOp_sessionCounter (s : MemStorage) (op : StoreOp) :
    (applyOp s op).sessionIdCounter =
      if isCreateSession op then s.sessionIdCounter + 1 else s.sessionIdCounter := by
  cases op with
  | updateSessionName id name =>
      simp only [applyOp, MemStorage.updateSessionName, isCreateSession]
      cases s.sessions.find? (fun x => x.id == id) <;> simp
  | createMessage m =>
      simp only [applyOp, MemStorage.createMessage, isCreateSession]
      cases s.sessions.find? (fun x => x.id == m.documentId) <;> simp
  | _ =>
      simp [applyOp, isCreateSession, MemStorage.createUser, MemStorage.createDocument,
        MemStorage.deleteDocument, MemStorage.createSession]

theorem applyOp_messageCounter (s : MemStorage) (op : StoreOp) :
    (applyOp s op).messageIdCounter =
      if isCreateMessage op then s.messageIdCounter + 1 else s.messageIdCounter := by
  cases op with
  | updateSessionName id name =>
      simp only [applyOp, MemStorage.updateSessionName, isCreateMessage]
      cases s.sessions.find? (fun x => x.id == id) <;> simp
  | createMessage m =>
      simp only [applyOp, MemStorage.createMessage, isCreateMessage]
      cases s.sessions.find? (fun x => x.id == m.documentId) <;> simp
  | _ =>
      simp [applyOp, isCreateMessage, MemStorage.createUser, MemStorage.createDocument,
        MemStorage.deleteDocument, MemStorage.createSession]

theorem idsAssigned_eq (c : MemStorage → Nat) (p : StoreOp → Bool)
    (hstep : ∀ s op, c (applyOp s op) = if p op then c s + 1 else c s) :
    ∀ (ops : List StoreOp) (s : MemStorage),
      idsAssigned c p s ops = List.range' (c s) (ops.countP p) := by
  intro ops
  induction ops with
  | nil => intro s; simp [idsAssigned]
  | cons op ops ih =>
      intro s
      by_cases hp : p op = true
      · rw [List.countP_cons]
        simp only [hp, if_true]
        rw [List.range'_succ]
        simp only [idsAssigned, hp, if_true]
        rw [ih (applyOp s op), hstep s op]
        simp [hp]
      · rw [List.countP_cons]
        simp only [hp, Bool.false_eq_true, if_false, Nat.add_zero]
        simp only [idsAssigned, hp, Bool.false_eq_true, if_false]
        rw [ih (applyOp s op), hstep s op]
        simp [hp]

theorem pairwise_lt_range' : ∀ (n s : Nat), (List.range' s n).Pairwise (· < ·) := by
  intro n
  induction n with
  | zero => intro s; simp
  | succ n ih =>
      intro s
      rw [List.range'_succ, List.pairwise_cons]
      refine ⟨?_, ih (s + 1)⟩
      intro y hy
      rcases List.mem_range'.1 hy with ⟨i, _, rfl⟩
      omega

theorem pos_of_mem_range'_one {i n : Nat} (h : i ∈ List.range' 1 n) : 0 < i := by
  rcases List.mem_range'.1 h with ⟨j, _, rfl⟩
  omega

/-- C6 — starting from `new MemStorage()`, along any sequence of create
and delete operations, the identifiers assigned within each entity kind
are exactly `1, 2, 3, …` in creation order: unique, positive, strictly
increasing, and never reused even after a delete (deletes leave the
counters untouched). -/
theorem idCounters_spec : ∀ ops : List StoreOp,
    (idsAssigned (fun s => s.userIdCounter) isCreateUser MemStorage.init ops =
       List.range' 1 (ops.countP isCreateUser) ∧
     (idsAssigned (fun s => s.userIdCounter) isCreateUser MemStorage.init ops).Pairwise (· < ·) ∧
     (∀ i ∈ idsAssigned (fun s => s.userIdCounter) isCreateUser MemStorage.init ops, 0 < i)) ∧
    (idsAssigned (fun s => s.documentIdCounter) isCreateDocument MemStorage.init ops =
       List.range' 1 (ops.countP isCreateDocument) ∧
     (idsAssigned (fun s => s.documentIdCounter) isCreateDocument MemStorage.init ops).Pairwise (· < ·) ∧
     (∀ i ∈ idsAssigned (fun s => s.documentIdCounter) isCreateDocument MemStorage.init ops, 0 < i)) ∧
    (idsAssigned (fun s => s.sessionIdCounter) isCreateSession MemStorage.init ops =
       List.range' 1 (ops.countP isCreateSession) ∧
     (idsAssigned (fun s => s.sessionIdCounter) isCreateSession MemStorage.init ops).Pairwise (· < ·) ∧
     (∀ i ∈ idsAssigned (fun s => s.sessionIdCounter) isCreateSession MemStorage.init ops, 0 < i)) ∧
    (idsAssigned (fun s => s.messageIdCounter) isCreateMessage MemStorage.init ops =
       List.range' 1 (ops.countP isCreateMessage) ∧
     (idsAssigned (fun s => s.messageIdCounter) isCreateMessage MemStorage.init ops).Pairwise (· < ·) ∧
     (∀ i ∈ idsAssigned (fun s => s.messageIdCounter) isCreateMessage MemStorage.init ops, 0 < i)) := by
  intro ops
  have hu := idsAssigned_eq (fun s => s.userIdCounter) isCreateUser
    (fun s op => applyOp_userCounter s op) ops MemStorage.init
  have hd := idsAssigned_eq (fun s => s.documentIdCounter) isCreateDocument
    (fun s op => applyOp_documentCounter s op) ops MemStorage.init
  have hs := idsAssigned_eq (fun s => s.sessionIdCounter) isCreateSession
    (fun s op => applyOp_sessionCounter s op) ops MemStorage.init
  have hm := idsAssigned_eq (fun s => s.messageIdCounter) isCreateMessage
    (fun s op => applyOp_messageCounter s op) ops MemStorage.init
  rw [hu, hd, hs, hm]
  exact ⟨⟨rfl, pairwise_lt_range' _ 1, fun i hi => pos_of_mem_range'_one hi⟩,
         ⟨rfl, pairwise_lt_range' _ 1, fun i hi => pos_of_mem_range'_one hi⟩,
         ⟨rfl, pairwise_lt_range' _ 1, fun i hi => pos_of_mem_range'_one hi⟩,
         ⟨rfl, pairwise_lt_range' _ 1, fun i hi => pos_of_mem_range'_one hi⟩⟩

theorem self_mem_mapSet {α : Type} (key : α → Nat) (l : List α) (k : Nat) (v : α) :
    v ∈ mapSet key l k v := by
  induction l with
  | nil => simp [mapSet]
  | cons x xs ih =>
      by_cases hx : key x = k
      · simp [mapSet, hx]
      · simp only [mapSet, beq_iff_eq, hx, if_false, List.mem_cons]
        exact Or.inr ih

/-- One `createMessage` against a session that is the first entry of the
sessions map carrying its id (as every session of a well-formed store
is): the message map grows by the user record, the session's
`lastMessageAt` is bumped to the current instant, the set of session ids
is unchanged, and well-formedness is preserved. -/
theorem createMessage_step (s : MemStorage) (sess : Session) (ins : InsertMessage)
    (hwf : WF s)
    (hins : ins.documentId = sess.id)
    (hfind : s.sessions.find? (fun x => x.id == sess.id) = some sess) :
    (s.createMessage ins).1 = newMessage s ins ∧
    (s.createMessage ins).2.messages = s.messages ++ [newMessage s ins] ∧
    (s.createMessage ins).2.messageIdCounter = s.messageIdCounter + 1 ∧
    (s.createMessage ins).2.clock = s.clock + 1 ∧
    (s.createMessage ins).2.sessions.map Session.id = s.sessions.map Session.id ∧
    (s.createMessage ins).2.sessions.find? (fun x => x.id == sess.id) =
      some { sess with lastMessageAt := s.clock } ∧
    (s.createMessage ins).2.documents = s.documents ∧
    WF (s.createMessage ins).2 := by
  have hfind' : s.sessions.find? (fun x => x.id == ins.documentId) = some sess := by
    rw [hins]; exact hfind
  have heq := createMessage_eq_some s ins sess (wf_freshMsg hwf) hfind'
  have hmem : sess ∈ s.sessions := List.mem_of_find?_eq_some hfind
  refine ⟨by rw [heq], by rw [heq], by rw [heq], by rw [heq], ?_, ?_, by rw [heq],
    wf_createMessage hwf ins⟩
  · rw [heq]
    exact mapSet_map_key_of_hit Session.id s.sessions sess.id _ rfl ⟨sess, hmem, rfl⟩
  · rw [heq]
    exact find?_mapSet_self Session.id s.sessions sess.id _ rfl

/-- Two `createMessage` calls against the same resolved session — the
user message then the assistant message, exactly the sequence the chat
route performs: the session's history gains exactly those two records in
order, no session id appears or disappears, and the stored session ends
with `lastMessageAt` two ticks later. -/
theorem twoMessages_step (s : MemStorage) (sess : Session) (m reply : String)
    (hwf : WF s)
    (hfind : s.sessions.find? (fun x => x.id == sess.id) = some sess) :
    (let p := s.createMessage { documentId := sess.id, role := "user", content := m }
     let q := p.2.createMessage { documentId := sess.id, role := "assistant", content := reply }
     p.1 = { id := s.messageIdCounter, documentId := sess.id, role := "user"
             content := m, timestamp := s.clock } ∧
     q.1 = { id := s.messageIdCounter + 1, documentId := sess.id, role := "assistant"
             content := reply, timestamp := s.clock + 1 } ∧
     q.2.getMessages sess.id = s.getMessages sess.id ++ [p.1, q.1] ∧
     q.2.sessions.map Session.id = s.sessions.map Session.id ∧
     q.2.getSession sess.id = some { sess with lastMessageAt := s.clock + 1 } ∧
     WF q.2) := by
  have h1 := createMessage_step s sess
    { documentId := sess.id, role := "user", content := m } hwf rfl hfind
  obtain ⟨hp1, hpm, hpc, hpk, hpmap, hpfind, hpdocs, hpwf⟩ := h1
  set p := s.createMessage { documentId := sess.id, role := "user", content := m } with hp
  have hsess1 : ({ sess with lastMessageAt := s.clock } : Session).id = sess.id := rfl
  have h2 := createMessage_step p.2 { sess with lastMessageAt := s.clock }
    { documentId := sess.id, role := "assistant", content := reply } hpwf rfl
    (by rw [hsess1]; exact hpfind)
  obtain ⟨hq1, hqm, hqc, hqk, hqmap, hqfind, hqdocs, hqwf⟩ := h2
  set q := p.2.createMessage { documentId := sess.id, role := "assistant", content := reply }
    with hq
  have hu : p.1 = { id := s.messageIdCounter, documentId := sess.id
                    role := "user", content := m, timestamp := s.clock } := by
    rw [hp1]; rfl
  have ha : q.1 = { id := s.messageIdCounter + 1, documentId := sess.id
                    role := "assistant", content := reply, timestamp := s.clock + 1 } := by
    rw [hq1]
    simp [newMessage, hpc, hpk]
  refine ⟨hu, ha, ?_, ?_, ?_, hqwf⟩
  · rw [getMessages_eq_filter hqwf.mSorted, hqm, hpm]
    rw [List.filter_append, List.filter_append]
    rw [getMessages_eq_filter hwf.mSorted]
    have hfu : (newMessage s { documentId := sess.id, role := "user", content := m }).documentId
        == sess.id := by simp [newMessage]
    have hfa : (newMessage p.2 { documentId := sess.id
                                 role := "assistant", content := reply }).documentId
        == sess.id := by simp [newMessage]
    simp [hfu, hfa, hp1, hq1]
    exact hq1.symm
  · rw [hqmap, hpmap]

  · show q.2.sessions.find? (fun x => x.id == sess.id) = _
    have : ({ sess with lastMessageAt := s.clock } : Session).lastMessageAt = s.clock := rfl
    rw [hqfind, hpk]

/-- Looking the session just created by `createSession` up by its id
finds it: all previously stored sessions carry strictly smaller ids. -/
theorem find?_newSession {s : MemStorage} (hwf : WF s) (ins : InsertSession) :
    (s.createSession ins).2.sessions.find?
      (fun x => x.id == (s.createSession ins).1.id) = some (s.createSession ins).1 := by
  rw [createSession_eq s ins (wf_freshSess hwf)]
  show (s.sessions ++ [newSession s ins]).find?
      (fun x => x.id == (newSession s ins).id) = some (newSession s ins)
  rw [List.find?_append]
  have hnone : s.sessions.find? (fun x => x.id == (newSession s ins).id) = none := by
    rw [List.find?_eq_none]
    intro x hx
    simp only [newSession, beq_iff_eq]
    exact wf_freshSess hwf x hx
  rw [hnone]
  simp

/-- C1 — a successful chat request against an existing document appends
exactly two Messages to the resolved session's history, the user's
message first and the completion client's reply second, in that order at
the end; with an existing `sessionId` no session id is added to the
store, and with no `sessionId` exactly one new Session (the fresh
counter value) is created and the same two messages land in its
history. -/
theorem chat_appends_two_messages :
    (∀ (s : MemStorage) (llm : List ChatMsg → Except String String)
       (documentId : Nat) (message : String) (sid : Nat)
       (doc : Document) (sess : Session) (reply : String),
       WF s →
       s.getDocument documentId = some doc →
       s.getSession sid = some sess →
       llm (chatPrompt doc ((s.createMessage
           { documentId := sess.id, role := "user", content := message }).2.getMessages
           sess.id)) = .ok reply →
       ∃ u a, (handleChat s llm documentId message (some sid)).2 =
           .ok { session := sess, userMessage := u, aiMessage := a } ∧
         u.role = "user" ∧ u.content = message ∧
         a.role = "assistant" ∧ a.content = reply ∧
         (handleChat s llm documentId message (some sid)).1.getMessages sess.id =
           s.getMessages sess.id ++ [u, a] ∧
         (handleChat s llm documentId message (some sid)).1.sessions.map Session.id =
           s.sessions.map Session.id) ∧
    (∀ (s : MemStorage) (llm : List ChatMsg → Except String String)
       (documentId : Nat) (message : String) (doc : Document) (reply : String),
       WF s →
       s.getDocument documentId = some doc →
       llm (chatPrompt doc (((s.createSession
           { documentId := documentId, name := chatName doc }).2.createMessage
           { documentId := (s.createSession
               { documentId := documentId, name := chatName doc }).1.id
             role := "user", content := message }).2.getMessages
           (s.createSession
             { documentId := documentId, name := chatName doc }).1.id)) = .ok reply →
       ∃ u a, (handleChat s llm documentId message none).2 =
           .ok { session := (s.createSession
                   { documentId := documentId, name := chatName doc }).1
                 userMessage := u, aiMessage := a } ∧
         u.role = "user" ∧ u.content = message ∧
         a.role = "assistant" ∧ a.content = reply ∧
         (handleChat s llm documentId message none).1.getMessages
             (s.createSession { documentId := documentId, name := chatName doc }).1.id =
           s.getMessages
             (s.createSession { documentId := documentId, name := chatName doc }).1.id
             ++ [u, a] ∧
         (handleChat s llm documentId message none).1.sessions.map Session.id =
           s.sessions.map Session.id ++ [s.sessionIdCounter]) := by
  constructor
  · intro s llm documentId message sid doc sess reply hwf hdoc hsess hllm
    have hsid' : sess.id = sid := by simpa using List.find?_some hsess
    have hmem : sess ∈ s.sessions := List.mem_of_find?_eq_some hsess
    have hpos : 0 < sid := hsid' ▸ hwf.sIdsPos sess hmem
    have hsid0 : sid ≠ 0 := by omega
    have hfind : s.sessions.find? (fun x => x.id == sess.id) = some sess := by
      rw [hsid']; exact hsess
    obtain ⟨hu, ha, hmsgs, hmap, hgets, hwf3⟩ :=
      twoMessages_step s sess message reply hwf hfind
    rw [handleChat_existing s llm documentId message sid doc sess hdoc hsid0 hsess]
    simp only [hllm]
    exact ⟨_, _, rfl, by rw [hu], by rw [hu], by rw [ha], by rw [ha], hmsgs, hmap⟩
  · intro s llm documentId message doc reply hwf hdoc hllm
    have hc := createSession_eq s
      { documentId := documentId, name := chatName doc } (wf_freshSess hwf)
    have hwf1 : WF (s.createSession
        { documentId := documentId, name := chatName doc }).2 :=
      wf_createSession hwf _
    have hfind := find?_newSession hwf
      { documentId := documentId, name := chatName doc }
    obtain ⟨hu, ha, hmsgs, hmap, hgets, hwf3⟩ :=
      twoMessages_step (s.createSession
          { documentId := documentId, name := chatName doc }).2
        (s.createSession { documentId := documentId, name := chatName doc }).1
        message reply hwf1 hfind
    rw [handleChat_fresh s llm documentId message none doc hdoc (Or.inl rfl)]
    simp only [hllm]
    refine ⟨_, _, rfl, by rw [hu], by rw [hu], by rw [ha], by rw [ha], ?_, ?_⟩
    · rw [hmsgs]
      have hsame : (s.createSession
          { documentId := documentId, name := chatName doc }).2.getMessages
          (s.createSession { documentId := documentId, name := chatName doc }).1.id =
          s.getMessages
            (s.createSession { documentId := documentId, name := chatName doc }).1.id := by
        show ((s.createSession
            { documentId := documentId, name := chatName doc }).2.messages.filter _).mergeSort _ =
          (s.messages.filter _).mergeSort _
        rw [hc]
      rw [hsame]
    · rw [hmap, hc]
      show (s.sessions ++ [newSession s _]).map Session.id = _
      simp [newSession]

theorem chat_appends_two_messages_witness :
    ∃ u a, (handleChat sampleStore (fun _ => Except.ok "the reply")
        1 "What is this?" (some 1)).2 =
        .ok { session := sampleSess, userMessage := u, aiMessage := a } ∧
      u.role = "user" ∧ u.content = "What is this?" ∧
      a.role = "assistant" ∧ a.content = "the reply" ∧
      (handleChat sampleStore (fun _ => Except.ok "the reply")
          1 "What is this?" (some 1)).1.getMessages sampleSess.id =
        sampleStore.getMessages sampleSess.id ++ [u, a] ∧
      (handleChat sampleStore (fun _ => Except.ok "the reply")
          1 "What is this?" (some 1)).1.sessions.map Session.id =
        sampleStore.sessions.map Session.id :=
  chat_appends_two_messages.1 sampleStore (fun _ => Except.ok "the reply")
    1 "What is this?" 1 sampleDoc sampleSess "the reply"
    wf_sampleStore rfl rfl rfl

/-- C3 — when the completion client call fails, the handler reports that
very failure to the caller as an error (no retry: the single `.error`
outcome of the one call is what comes back) and leaves the store in a
partial state: the user's Message is already persisted in the session's
history and no assistant Message exists for it.  Covers both the
existing-session path and the fresh-session path. -/
theorem chat_llm_failure_partial_state :
    (∀ (s : MemStorage) (llm : List ChatMsg → Except String String)
       (documentId : Nat) (message : String) (sid : Nat)
       (doc : Document) (sess : Session) (e : String),
       WF s →
       s.getDocument documentId = some doc →
       s.getSession sid = some sess →
       llm (chatPrompt doc ((s.createMessage
           { documentId := sess.id, role := "user", content := message }).2.getMessages
           sess.id)) = .error e →
       ∃ u, handleChat s llm documentId message (some sid) =
           ((s.createMessage
               { documentId := sess.id, role := "user", content := message }).2,
            .error (.llmError e)) ∧
         (handleChat s llm documentId message (some sid)).1.messages =
           s.messages ++ [u] ∧
         u.role = "user" ∧ u.content = message ∧ u.documentId = sess.id ∧
         (handleChat s llm documentId message (some sid)).1.getMessages sess.id =
           s.getMessages sess.id ++ [u] ∧
         (handleChat s llm documentId message (some sid)).1.messages.filter
             (fun m_ => m_.role == "assistant") =
           s.messages.filter (fun m_ => m_.role == "assistant")) ∧
    (∀ (s : MemStorage) (llm : List ChatMsg → Except String String)
       (documentId : Nat) (message : String) (doc : Document) (e : String),
       WF s →
       s.getDocument documentId = some doc →
       llm (chatPrompt doc (((s.createSession
           { documentId := documentId, name := chatName doc }).2.createMessage
           { documentId := (s.createSession
               { documentId := documentId, name := chatName doc }).1.id
             role := "user", content := message }).2.getMessages
           (s.createSession
             { documentId := documentId, name := chatName doc }).1.id)) = .error e →
       ∃ u, (handleChat s llm documentId message none).2 = .error (.llmError e) ∧
         (handleChat s llm documentId message none).1.messages = s.messages ++ [u] ∧
         u.role = "user" ∧ u.content = message ∧
         (handleChat s llm documentId message none).1.messages.filter
             (fun m_ => m_.role == "assistant") =
           s.messages.filter (fun m_ => m_.role == "assistant")) := by
  constructor
  · intro s llm documentId message sid doc sess e hwf hdoc hsess hllm
    have hsid' : sess.id = sid := by simpa using List.find?_some hsess
    have hmem : sess ∈ s.sessions := List.mem_of_find?_eq_some hsess
    have hpos : 0 < sid := hsid' ▸ hwf.sIdsPos sess hmem
    have hsid0 : sid ≠ 0 := by omega
    have hfind : s.sessions.find? (fun x => x.id == sess.id) = some sess := by
      rw [hsid']; exact hsess
    obtain ⟨hp1, hpm, hpc, hpk, hpmap, hpfind, hpdocs, hpwf⟩ :=
      createMessage_step s sess
        { documentId := sess.id, role := "user", content := message } hwf rfl hfind
    rw [handleChat_existing s llm documentId message sid doc sess hdoc hsid0 hsess]
    simp only [hllm]
    refine ⟨newMessage s { documentId := sess.id, role := "user", content := message },
      trivial, hpm, rfl, rfl, rfl, ?_, ?_⟩
    · rw [getMessages_eq_filter hpwf.mSorted, hpm, List.filter_append,
        getMessages_eq_filter hwf.mSorted]
      simp [newMessage]
    · rw [hpm, List.filter_append]
      simp [newMessage]
  · intro s llm documentId message doc e hwf hdoc hllm
    have hwf1 : WF (s.createSession
        { documentId := documentId, name := chatName doc }).2 :=
      wf_createSession hwf _
    have hfind := find?_newSession hwf
      { documentId := documentId, name := chatName doc }
    obtain ⟨hp1, hpm, hpc, hpk, hpmap, hpfind, hpdocs, hpwf⟩ :=
      createMessage_step (s.createSession
          { documentId := documentId, name := chatName doc }).2
        (s.createSession { documentId := documentId, name := chatName doc }).1
        { documentId := (s.createSession
            { documentId := documentId, name := chatName doc }).1.id
          role := "user", content := message } hwf1 rfl hfind
    have hc := createSession_eq s
      { documentId := documentId, name := chatName doc } (wf_freshSess hwf)
    rw [handleChat_fresh s llm documentId message none doc hdoc (Or.inl rfl)]
    simp only [hllm]
    have hmsgs1 : (s.createSession
        { documentId := documentId, name := chatName doc }).2.messages = s.messages := by
      rw [hc]
    refine ⟨newMessage (s.createSession
        { documentId := documentId, name := chatName doc }).2
        { documentId := (s.createSession
            { documentId := documentId, name := chatName doc }).1.id
          role := "user", content := message },
      trivial, by rw [hpm, hmsgs1], rfl, rfl, ?_⟩
    rw [hpm, hmsgs1, List.filter_append]
    simp [newMessage]

theorem chat_llm_failure_partial_state_witness :
    ∃ u, handleChat sampleStore (fun _ => Except.error "boom") 1 "hi" (some 1) =
        ((sampleStore.createMessage
            { documentId := sampleSess.id, role := "user", content := "hi" }).2,
         .error (.llmError "boom")) ∧
      (handleChat sampleStore (fun _ => Except.error "boom") 1 "hi" (some 1)).1.messages =
        sampleStore.messages ++ [u] ∧
      u.role = "user" ∧ u.content = "hi" ∧ u.documentId = sampleSess.id ∧
      (handleChat sampleStore (fun _ => Except.error "boom")
          1 "hi" (some 1)).1.getMessages sampleSess.id =
        sampleStore.getMessages sampleSess.id ++ [u] ∧
      (handleChat sampleStore (fun _ => Except.error "boom")
          1 "hi" (some 1)).1.messages.filter (fun m_ => m_.role == "assistant") =
        sampleStore.messages.filter (fun m_ => m_.role == "assistant") :=
  chat_llm_failure_partial_state.1 sampleStore (fun _ => Except.error "boom")
    1 "hi" 1 sampleDoc sampleSess "boom" wf_sampleStore rfl rfl rfl

/-- C8 — the session object a successful chat response carries is the
snapshot taken when the session was looked up (or created): its
`lastMessageAt` is the pre-request value, while the stored session's
`lastMessageAt` has been advanced by the two `createMessage` calls, so
the response's session is strictly stale with respect to the store. -/
theorem chat_response_session_stale :
    (∀ (s : MemStorage) (llm : List ChatMsg → Except String String)
       (documentId : Nat) (message : String) (sid : Nat)
       (doc : Document) (sess : Session) (reply : String),
       WF s →
       s.getDocument documentId = some doc →
       s.getSession sid = some sess →
       llm (chatPrompt doc ((s.createMessage
           { documentId := sess.id, role := "user", content := message }).2.getMessages
           sess.id)) = .ok reply →
       ∃ u a, (handleChat s llm documentId message (some sid)).2 =
           .ok { session := sess, userMessage := u, aiMessage := a } ∧
         (handleChat s llm documentId message (some sid)).1.getSession sess.id =
           some { sess with lastMessageAt := s.clock + 1 } ∧
         sess.lastMessageAt < s.clock + 1) ∧
    (∀ (s : MemStorage) (llm : List ChatMsg → Except String String)
       (documentId : Nat) (message : String) (doc : Document) (reply : String),
       WF s →
       s.getDocument documentId = some doc →
       llm (chatPrompt doc (((s.createSession
           { documentId := documentId, name := chatName doc }).2.createMessage
           { documentId := (s.createSession
               { documentId := documentId, name := chatName doc }).1.id
             role := "user", content := message }).2.getMessages
           (s.createSession
             { documentId := documentId, name := chatName doc }).1.id)) = .ok reply →
       ∃ u a, (handleChat s llm documentId message none).2 =
           .ok { session := (s.createSession
                   { documentId := documentId, name := chatName doc }).1
                 userMessage := u, aiMessage := a } ∧
         (s.createSession
           { documentId := documentId, name := chatName doc }).1.lastMessageAt = s.clock ∧
         (handleChat s llm documentId message none).1.getSession
             (s.createSession { documentId := documentId, name := chatName doc }).1.id =
           some { (s.createSession
               { documentId := documentId, name := chatName doc }).1 with
             lastMessageAt := s.clock + 2 } ∧
         (s.createSession
           { documentId := documentId, name := chatName doc }).1.lastMessageAt
           < s.clock + 2) := by
  constructor
  · intro s llm documentId message sid doc sess reply hwf hdoc hsess hllm
    have hsid' : sess.id = sid := by simpa using List.find?_some hsess
    have hmem : sess ∈ s.sessions := List.mem_of_find?_eq_some hsess
    have hpos : 0 < sid := hsid' ▸ hwf.sIdsPos sess hmem
    have hsid0 : sid ≠ 0 := by omega
    have hfind : s.sessions.find? (fun x => x.id == sess.id) = some sess := by
      rw [hsid']; exact hsess
    obtain ⟨hu, ha, hmsgs, hmap, hgets, hwf3⟩ :=
      twoMessages_step s sess message reply hwf hfind
    rw [handleChat_existing s llm documentId message sid doc sess hdoc hsid0 hsess]
    simp only [hllm]
    exact ⟨_, _, rfl, hgets, Nat.lt_succ_of_lt (hwf.sTimesLt sess hmem)⟩
  · intro s llm documentId message doc reply hwf hdoc hllm
    have hc := createSession_eq s
      { documentId := documentId, name := chatName doc } (wf_freshSess hwf)
    have hwf1 : WF (s.createSession
        { documentId := documentId, name := chatName doc }).2 :=
      wf_createSession hwf _
    have hfind := find?_newSession hwf
      { documentId := documentId, name := chatName doc }
    obtain ⟨hu, ha, hmsgs, hmap, hgets, hwf3⟩ :=
      twoMessages_step (s.createSession
          { documentId := documentId, name := chatName doc }).2
        (s.createSession { documentId := documentId, name := chatName doc }).1
        message reply hwf1 hfind
    rw [handleChat_fresh s llm documentId message none doc hdoc (Or.inl rfl)]
    simp only [hllm]
    refine ⟨_, _, rfl, by rw [hc]; simp [newSession], ?_, ?_⟩
    · have hclock : (s.createSession
          { documentId := documentId, name := chatName doc }).2.clock = s.clock + 1 := by
        rw [hc]
      rw [hgets, hclock]
    · have : (s.createSession
          { documentId := documentId, name := chatName doc }).1.lastMessageAt = s.clock := by
        rw [hc]; simp [newSession]
      omega

theorem chat_response_session_stale_witness :
    ∃ u a, (handleChat sampleStore (fun _ => Except.ok "re") 1 "hi" (some 1)).2 =
        .ok { session := sampleSess, userMessage := u, aiMessage := a } ∧
      (handleChat sampleStore (fun _ => Except.ok "re") 1 "hi" (some 1)).1.getSession
          sampleSess.id =
        some { sampleSess with lastMessageAt := sampleStore.clock + 1 } ∧
      sampleSess.lastMessageAt < sampleStore.clock + 1 :=
  chat_response_session_stale.1 sampleStore (fun _ => Except.ok "re")
    1 "hi" 1 sampleDoc sampleSess "re" wf_sampleStore rfl rfl rfl

def sampleDoc2 : Document :=
  { id := 2, name := "b.txt", originalName := "b.txt"
    mimeType := "text/plain", size := 3, content := "abc", uploadedAt := 1 }

def mismatchSess : Session :=
  { id := 1, documentId := 2, name := "Chat about b.txt"
    createdAt := 2, lastMessageAt := 2 }

/-- A store in which session 1 belongs to document 2, used to exercise
the unchecked document/session mismatch. -/
def mismatchStore : MemStorage :=
  { users := [], documents := [sampleDoc, sampleDoc2], sessions := [mismatchSess]
    messages := [], userIdCounter := 1, documentIdCounter := 3
    sessionIdCounter := 2, messageIdCounter := 1, clock := 3 }

theorem wf_mismatchStore : WF mismatchStore := by
  constructor <;> simp [mismatchStore, sampleDoc, sampleDoc2, mismatchSess]

/-- C9 — a chat request whose `sessionId` names a session owned by a
different document than the supplied `documentId` is not rejected: the
handler appends the user and assistant messages to that session, and the
prompt it hands the completion client opens with the system prompt built
from the supplied document's content (not the session's owner). -/
theorem chat_mismatch_unchecked :
    ∀ (s : MemStorage) (llm : List ChatMsg → Except String String)
      (documentId : Nat) (message : String) (sid : Nat)
      (doc : Document) (sess : Session) (reply : String),
      WF s →
      s.getDocument documentId = some doc →
      s.getSession sid = some sess →
      sess.documentId ≠ documentId →
      llm (chatPrompt doc ((s.createMessage
          { documentId := sess.id, role := "user", content := message }).2.getMessages
          sess.id)) = .ok reply →
      ∃ u a, (handleChat s llm documentId message (some sid)).2 =
          .ok { session := sess, userMessage := u, aiMessage := a } ∧
        u.content = message ∧ a.content = reply ∧
        (handleChat s llm documentId message (some sid)).1.getMessages sess.id =
          s.getMessages sess.id ++ [u, a] ∧
        (chatPrompt doc ((s.createMessage
            { documentId := sess.id, role := "user", content := message }).2.getMessages
            sess.id)).head? =
          some { role := "system", content := systemPromptFor doc } ∧
        llm (chatPrompt doc ((s.createMessage
            { documentId := sess.id, role := "user", content := message }).2.getMessages
            sess.id)) = .ok a.content := by
  intro s llm documentId message sid doc sess reply hwf hdoc hsess hmis hllm
  have hsid' : sess.id = sid := by simpa using List.find?_some hsess
  have hmem : sess ∈ s.sessions := List.mem_of_find?_eq_some hsess
  have hpos : 0 < sid := hsid' ▸ hwf.sIdsPos sess hmem
  have hsid0 : sid ≠ 0 := by omega
  have hfind : s.sessions.find? (fun x => x.id == sess.id) = some sess := by
    rw [hsid']; exact hsess
  obtain ⟨hu, ha, hmsgs, hmap, hgets, hwf3⟩ :=
    twoMessages_step s sess message reply hwf hfind
  rw [handleChat_existing s llm documentId message sid doc sess hdoc hsid0 hsess]
  simp only [hllm]
  exact ⟨_, _, rfl, by rw [hu], by rw [ha], hmsgs, rfl, by rw [ha]⟩

theorem chat_mismatch_unchecked_witness :
    mismatchSess.documentId ≠ 1 ∧
    ∃ u a, (handleChat mismatchStore (fun _ => Except.ok "re") 1 "hi" (some 1)).2 =
        .ok { session := mismatchSess, userMessage := u, aiMessage := a } ∧
      u.content = "hi" ∧ a.content = "re" ∧
      (handleChat mismatchStore (fun _ => Except.ok "re") 1 "hi" (some 1)).1.getMessages
          mismatchSess.id =
        mismatchStore.getMessages mismatchSess.id ++ [u, a] ∧
      (chatPrompt sampleDoc ((mismatchStore.createMessage
          { documentId := mismatchSess.id, role := "user", content := "hi" }).2.getMessages
          mismatchSess.id)).head? =
        some { role := "system", content := systemPromptFor sampleDoc } ∧
      (fun _ : List ChatMsg => (Except.ok "re" : Except String String)) (chatPrompt sampleDoc
          ((mismatchStore.createMessage
            { documentId := mismatchSess.id, role := "user", content := "hi" }).2.getMessages
            mismatchSess.id)) = .ok a.content :=
  ⟨by decide,
   chat_mismatch_unchecked mismatchStore (fun _ => Except.ok "re")
     1 "hi" 1 sampleDoc mismatchSess "re" wf_mismatchStore rfl rfl (by decide) rfl⟩

/-- C2 (counterexample) — the claim says a given `sessionId` is always
looked up and 404s when absent; but `if (sessionId)` is a truthiness
check, so `sessionId = 0` (a value the request schema admits, and absent
from every store) is not looked up: the handler silently creates a new
session and succeeds. -/
theorem chat_zero_sessionid_counterexample :
    sampleStore.getSession 0 = none ∧
    (∃ r, (handleChat sampleStore (fun _ => Except.ok "ok") 1 "hi" (some 0)).2 =
      Except.ok r) ∧
    (handleChat sampleStore (fun _ => Except.ok "ok") 1 "hi" (some 0)).1.sessions.map
        Session.id = [1, 2] := by
  refine ⟨rfl, ⟨_, rfl⟩, by decide⟩

/-- C2 (amended) — for every chat request with a NONZERO `sessionId`, the
handler looks the session up and fails with NotFound, mutating nothing,
when it is absent; when no `sessionId` is supplied (or the falsy value
0 is), it creates exactly one new session whose name derives from the
supplied document's display name. -/
theorem chat_session_resolution :
    (∀ (s : MemStorage) (llm : List ChatMsg → Except String String)
       (documentId : Nat) (message : String) (sid : Nat) (doc : Document),
       s.getDocument documentId = some doc →
       sid ≠ 0 →
       s.getSession sid = none →
       handleChat s llm documentId message (some sid) = (s, .error .sessionNotFound)) ∧
    (∀ (s : MemStorage) (llm : List ChatMsg → Except String String)
       (documentId : Nat) (message : String) (sid0 : Option Nat) (doc : Document),
       WF s →
       s.getDocument documentId = some doc →
       (sid0 = none ∨ sid0 = some 0) →
       ∃ sess', (handleChat s llm documentId message sid0).1.getSession
           s.sessionIdCounter = some sess' ∧
         sess'.name = chatName doc ∧ sess'.documentId = documentId ∧
         (handleChat s llm documentId message sid0).1.sessions.map Session.id =
           s.sessions.map Session.id ++ [s.sessionIdCounter]) := by
  constructor
  · intro s llm documentId message sid doc hdoc hsid hsess
    exact handleChat_noSession s llm documentId message sid doc hdoc hsid hsess
  · intro s llm documentId message sid0 doc hwf hdoc hsid0
    have hc := createSession_eq s
      { documentId := documentId, name := chatName doc } (wf_freshSess hwf)
    have hwf1 : WF (s.createSession
        { documentId := documentId, name := chatName doc }).2 :=
      wf_createSession hwf _
    have hfind := find?_newSession hwf
      { documentId := documentId, name := chatName doc }
    have hid : (s.createSession
        { documentId := documentId, name := chatName doc }).1.id = s.sessionIdCounter := by
      rw [hc]; simp [newSession]
    have hmap1 : (s.createSession
        { documentId := documentId, name := chatName doc }).2.sessions.map Session.id =
        s.sessions.map Session.id ++ [s.sessionIdCounter] := by
      rw [hc]
      show (s.sessions ++ [newSession s _]).map Session.id = _
      simp [newSession]
    rw [handleChat_fresh s llm documentId message sid0 doc hdoc hsid0]
    cases hres : llm (chatPrompt doc (((s.createSession
        { documentId := documentId, name := chatName doc }).2.createMessage
        { documentId := (s.createSession
            { documentId := documentId, name := chatName doc }).1.id
          role := "user", content := message }).2.getMessages
        (s.createSession
          { documentId := documentId, name := chatName doc }).1.id)) with
    | error e =>
        obtain ⟨hp1, hpm, hpc, hpk, hpmap, hpfind, hpdocs, hpwf⟩ :=
          createMessage_step (s.createSession
              { documentId := documentId, name := chatName doc }).2
            (s.createSession { documentId := documentId, name := chatName doc }).1
            { documentId := (s.createSession
                { documentId := documentId, name := chatName doc }).1.id
              role := "user", content := message } hwf1 rfl hfind
        simp only [hres]
        refine ⟨{ (s.createSession
            { documentId := documentId, name := chatName doc }).1 with
            lastMessageAt := (s.createSession
              { documentId := documentId, name := chatName doc }).2.clock },
          ?_, ?_, ?_, ?_⟩
        · rw [← hid]; exact hpfind
        · rw [hc]; simp [newSession]
        · rw [hc]; simp [newSession]
        · rw [hpmap, hmap1]
    | ok reply =>
        obtain ⟨hu, ha, hmsgs, hqmap, hgets, hwf3⟩ :=
          twoMessages_step (s.createSession
              { documentId := documentId, name := chatName doc }).2
            (s.createSession { documentId := documentId, name := chatName doc }).1
            message reply hwf1 hfind
        simp only [hres]
        refine ⟨{ (s.createSession
            { documentId := documentId, name := chatName doc }).1 with
            lastMessageAt := (s.createSession
              { documentId := documentId, name := chatName doc }).2.clock + 1 },
          ?_, ?_, ?_, ?_⟩
        · rw [← hid]; exact hgets
        · rw [hc]; simp [newSession]
        · rw [hc]; simp [newSession]
        · rw [hqmap, hmap1]

theorem chat_session_resolution_witness :
    (handleChat sampleStore (fun _ => Except.ok "ok") 1 "hi" (some 7)) =
      (sampleStore, .error .sessionNotFound) ∧
    ∃ sess', (handleChat sampleStore (fun _ => Except.ok "ok") 1 "hi" none).1.getSession
        sampleStore.sessionIdCounter = some sess' ∧
      sess'.name = chatName sampleDoc ∧ sess'.documentId = 1 ∧
      (handleChat sampleStore (fun _ => Except.ok "ok") 1 "hi" none).1.sessions.map
          Session.id =
        sampleStore.sessions.map Session.id ++ [sampleStore.sessionIdCounter] :=
  ⟨chat_session_resolution.1 sampleStore (fun _ => Except.ok "ok") 1 "hi" 7 sampleDoc
     rfl (by decide) rfl,
   chat_session_resolution.2 sampleStore (fun _ => Except.ok "ok") 1 "hi" none sampleDoc
     wf_sampleStore rfl (Or.inl rfl)⟩

theorem processFile_txt (utf8Decode : List Nat → String)
    (pdfExtract docExtract : List Nat → Except String String)
    (f : UploadedFile) (hmt : f.mimetype = "text/plain") :
    processFile utf8Decode pdfExtract docExtract f = .ok (utf8Decode f.buffer) := by
  simp [processFile, hmt]

/-- On a valid `.txt` upload with nonempty decoded content, the upload
route runs `createDocument`, `createSession`, `createMessage` in
sequence and returns the document and (snapshot) session. -/
theorem uploadDocument_txt (s : MemStorage) (utf8Decode : List Nat → String)
    (pdfExtract docExtract : List Nat → Except String String)
    (f : UploadedFile) (hmt : f.mimetype = "text/plain")
    (hne : utf8Decode f.buffer ≠ "") :
    uploadDocument s utf8Decode pdfExtract docExtract (some f) =
      (let pd := s.createDocument
         { name := f.originalname, originalName := f.originalname
           mimeType := f.mimetype, size := f.size, content := utf8Decode f.buffer }
       let ps := pd.2.createSession { documentId := pd.1.id, name := chatName pd.1 }
       let pm := ps.2.createMessage
         { documentId := ps.1.id, role := "system", content := greeting pd.1 }
       (pm.2, .ok { document := pd.1, session := ps.1 })) := by
  have hct : validFileTypes.contains "text/plain" = true := by decide
  simp only [uploadDocument, processFile_txt utf8Decode pdfExtract docExtract f hmt,
    hmt, hct]
  rw [if_neg (by simp), if_neg (by simpa using hne)]

/-- The upload route rejects a file whose extracted content is the empty
string (`if (!content)`), creating nothing. -/
theorem uploadDocument_txt_empty (s : MemStorage) (utf8Decode : List Nat → String)
    (pdfExtract docExtract : List Nat → Except String String)
    (f : UploadedFile) (hmt : f.mimetype = "text/plain")
    (heq : utf8Decode f.buffer = "") :
    uploadDocument s utf8Decode pdfExtract docExtract (some f) =
      (s, .error .emptyContent) := by
  have hct : validFileTypes.contains "text/plain" = true := by decide
  simp only [uploadDocument, processFile_txt utf8Decode pdfExtract docExtract f hmt,
    hmt, hct]
  rw [if_neg (by simp), if_pos (by simpa using heq)]

def emptyTxtFile : UploadedFile :=
  { originalname := "empty.txt", mimetype := "text/plain", size := 0, buffer := [] }

/-- C5 (counterexample) — an empty but valid `.txt` file (byte size 0,
whose UTF-8 decoding is the empty string) is NOT accepted: the handler
answers 400 `Failed to process file` because the extracted content is
falsy, and no Document, Session or Message is created — contradicting
the claim that every valid `.txt` of size N yields a Document with
`size == N`. -/
theorem upload_empty_txt_counterexample :
    uploadDocument MemStorage.init (fun _ => "") (fun _ => Except.error "pdf")
        (fun _ => Except.error "doc") (some emptyTxtFile) =
      (MemStorage.init, .error .emptyContent) :=
  uploadDocument_txt_empty MemStorage.init (fun _ => "") (fun _ => Except.error "pdf")
    (fun _ => Except.error "doc") emptyTxtFile rfl rfl

/-- C5 (amended) — for every uploaded `.txt` file whose decoded text is
NONEMPTY, the upload handler succeeds and yields a Document whose `size`
equals the file's byte size and whose `content` is the decoded text, and
one Session plus exactly one system Message are created together with
the Document; a `.txt` whose decoded content is empty is instead
rejected with no entity created. -/
theorem upload_txt_spec :
    ∀ (s : MemStorage) (utf8Decode : List Nat → String)
      (pdfExtract docExtract : List Nat → Except String String) (f : UploadedFile),
      WF s →
      f.mimetype = "text/plain" →
      ((utf8Decode f.buffer ≠ "" →
        ∃ doc sess msg,
          (uploadDocument s utf8Decode pdfExtract docExtract (some f)).2 =
            .ok { document := doc, session := sess } ∧
          doc.size = f.size ∧ doc.content = utf8Decode f.buffer ∧
          doc.name = f.originalname ∧
          (uploadDocument s utf8Decode pdfExtract docExtract (some f)).1.documents =
            s.documents ++ [doc] ∧
          sess.documentId = doc.id ∧ sess.name = chatName doc ∧
          (uploadDocument s utf8Decode pdfExtract docExtract (some f)).1.sessions.map
              Session.id = s.sessions.map Session.id ++ [sess.id] ∧
          (uploadDocument s utf8Decode pdfExtract docExtract (some f)).1.messages =
            s.messages ++ [msg] ∧
          msg.role = "system" ∧ msg.documentId = sess.id ∧
          msg.content = greeting doc) ∧
       (utf8Decode f.buffer = "" →
        uploadDocument s utf8Decode pdfExtract docExtract (some f) =
          (s, .error .emptyContent))) := by
  intro s utf8Decode pdfExtract docExtract f hwf hmt
  constructor
  · intro hne
    rw [uploadDocument_txt s utf8Decode pdfExtract docExtract f hmt hne]
    have hd := createDocument_eq s
      { name := f.originalname, originalName := f.originalname
        mimeType := f.mimetype, size := f.size, content := utf8Decode f.buffer }
      (wf_freshDoc hwf)
    have hwfd : WF (s.createDocument
        { name := f.originalname, originalName := f.originalname
          mimeType := f.mimetype, size := f.size, content := utf8Decode f.buffer }).2 :=
      wf_createDocument hwf _
    set pd := s.createDocument
      { name := f.originalname, originalName := f.originalname
        mimeType := f.mimetype, size := f.size, content := utf8Decode f.buffer } with hpd
    have hs := createSession_eq pd.2
      { documentId := pd.1.id, name := chatName pd.1 } (wf_freshSess hwfd)
    have hwfs : WF (pd.2.createSession
        { documentId := pd.1.id, name := chatName pd.1 }).2 :=
      wf_createSession hwfd _
    have hfind := find?_newSession hwfd
      { documentId := pd.1.id, name := chatName pd.1 }
    set ps := pd.2.createSession { documentId := pd.1.id, name := chatName pd.1 } with hps
    obtain ⟨hp1, hpm, hpc, hpk, hpmap, hpfind, hpdocs, hpwf⟩ :=
      createMessage_step ps.2 ps.1
        { documentId := ps.1.id, role := "system", content := greeting pd.1 }
        hwfs rfl hfind
    refine ⟨pd.1, ps.1, newMessage ps.2
        { documentId := ps.1.id, role := "system", content := greeting pd.1 },
      rfl, by rw [hd]; simp [newDocument], by rw [hd]; simp [newDocument],
      by rw [hd]; simp [newDocument], ?_, by rw [hs]; simp [newSession],
      by rw [hs]; simp [newSession], ?_, ?_, rfl, rfl, rfl⟩
    · show (ps.2.createMessage _).2.documents = _
      rw [hpdocs, hs]
      show pd.2.documents = _
      rw [hd]
    · show ((ps.2.createMessage _).2.sessions.map Session.id) = _
      rw [hpmap, hs]
      show ((pd.2.sessions ++ [newSession pd.2 _]).map Session.id) = _
      rw [List.map_append]
      have h1 : pd.2.sessions = s.sessions := by rw [hd]
      have h2 : (newSession pd.2
          { documentId := pd.1.id, name := chatName pd.1 }).id = ps.1.id := by
        rw [hs]
      rw [h1]
      simp [h2]
    · show (ps.2.createMessage _).2.messages = _
      rw [hpm, hs]
      show pd.2.messages ++ _ = _
      rw [hd]
  · intro heq
    exact uploadDocument_txt_empty s utf8Decode pdfExtract docExtract f hmt heq

theorem upload_txt_spec_witness :
    ∃ doc sess msg,
      (uploadDocument MemStorage.init (fun bs => String.mk (bs.map Char.ofNat))
          (fun _ => Except.error "pdf") (fun _ => Except.error "doc")
          (some { originalname := "notes.txt", mimetype := "text/plain"
                  size := 2, buffer := [104, 105] })).2 =
        .ok { document := doc, session := sess } ∧
      doc.size = 2 ∧
      doc.content = (fun bs : List Nat => String.mk (bs.map Char.ofNat)) [104, 105] ∧
      doc.name = "notes.txt" ∧
      (uploadDocument MemStorage.init (fun bs => String.mk (bs.map Char.ofNat))
          (fun _ => Except.error "pdf") (fun _ => Except.error "doc")
          (some { originalname := "notes.txt", mimetype := "text/plain"
                  size := 2, buffer := [104, 105] })).1.documents =
        MemStorage.init.documents ++ [doc] ∧
      sess.documentId = doc.id ∧ sess.name = chatName doc ∧
      (uploadDocument MemStorage.init (fun bs => String.mk (bs.map Char.ofNat))
          (fun _ => Except.error "pdf") (fun _ => Except.error "doc")
          (some { originalname := "notes.txt", mimetype := "text/plain"
                  size := 2, buffer := [104, 105] })).1.sessions.map Session.id =
        MemStorage.init.sessions.map Session.id ++ [sess.id] ∧
      (uploadDocument MemStorage.init (fun bs => String.mk (bs.map Char.ofNat))
          (fun _ => Except.error "pdf") (fun _ => Except.error "doc")
          (some { originalname := "notes.txt", mimetype := "text/plain"
                  size := 2, buffer := [104, 105] })).1.messages =
        MemStorage.init.messages ++ [msg] ∧
      msg.role = "system" ∧ msg.documentId = sess.id ∧ msg.content = greeting doc :=
  (upload_txt_spec MemStorage.init (fun bs => String.mk (bs.map Char.ofNat))
    (fun _ => Except.error "pdf") (fun _ => Except.error "doc")
    { originalname := "notes.txt", mimetype := "text/plain", size := 2, buffer := [104, 105] }
    wf_init rfl).1 (by decide)

/-- A short operation sequence that creates a document, deletes it, then
creates another: the second creation still gets the next id 2, never 1
again. -/
def opsSample : List StoreOp :=
  [.createDocument { name := "a", originalName := "a", mimeType := "text/plain"
                     size := 1, content := "x" },
   .deleteDocument 1,
   .createDocument { name := "b", originalName := "b", mimeType := "text/plain"
                     size := 1, content := "y" }]

theorem idCounters_spec_witness :
    idsAssigned (fun s => s.documentIdCounter) isCreateDocument MemStorage.init
      opsSample = [1, 2] ∧ 0 < 1 := by
  have h := idCounters_spec opsSample
  refine ⟨?_, h.2.1.2.2 1 ?_⟩
  · rw [h.2.1.1]; decide
  · rw [h.2.1.1]; decide

end DocInsight
